import Mathlib

/-!
Shallow embedding of the attention / Vision-Transformer core of the
repository (src/models/layers/attentions/attention.py and src/models/vit.py).

Tensors are modelled as nested lists of real numbers; a rank-3 input
`(batch, sequence, channels)` is `List (List (List ℝ))` (the `assert ndim == 3`
of the source is enforced by this representation).  Parameters are threaded
explicitly, following the spec's two-phase reimplementation note (§9): each
module is a configuration structure plus a pure forward function taking a
parameter record.  Python attribute access on a module's configuration is
modelled explicitly because `AttentionBlock.__call__` (line 70) reads
`self.attn_dropout_rate`, a name that is not among the declared dataclass
fields (line 15 declares `attn_drop_rate`), so the lookup raises
`AttributeError` in Python; fallible evaluation is `Except Err`.
-/

abbrev Tensor1 := List ℝ
abbrev Tensor2 := List (List ℝ)
abbrev Tensor3 := List (List (List ℝ))
abbrev Tensor4 := List (List (List (List ℝ)))
abbrev Mask3 := List (List (List Bool))
abbrev Mask4 := List (List (List (List Bool)))

/-- Errors a forward evaluation can raise: the failed `assert` on channel
divisibility (a configuration error in the spec's terms), and a Python
`AttributeError` from accessing an undeclared attribute. -/
inductive Err where
  | configError : Err
  | attributeError : Err
deriving DecidableEq

/-- `inputs.shape[-1]` of a rank-3 array: the channel width, read off the
first position of the first batch element. -/
def lastDim (t : Tensor3) : ℕ := ((t.headD []).headD []).length

/-- Python truthiness-based defaulting `a or b` for an optional integer
field: `None` and `0` are both falsy, so both select the default. -/
def pyOrNat (o : Option ℕ) (d : ℕ) : ℕ :=
  match o with
  | none => d
  | some x => if x = 0 then d else x

/-- Dot product of two channel vectors. -/
def dot (v w : Tensor1) : ℝ := (List.zipWith (fun a b => a * b) v w).sum

def matAdd (a b : Tensor2) : Tensor2 := List.zipWith (List.zipWith (fun x y => x + y)) a b

/-- Elementwise addition of two equal-shape rank-3 arrays (the residual
adds of `EncoderBlock`). -/
def tensorAdd (a b : Tensor3) : Tensor3 := List.zipWith matAdd a b

def matZeros (h d : ℕ) : Tensor2 := List.replicate h (List.replicate d (0 : ℝ))

/-- Numeric dtype of the computation; the source fixes `jnp.float32` and the
spec treats precision plumbing as out of scope. -/
inductive DType where
  | float32 : DType
deriving DecidableEq

/-- `jax.lax.Precision`; inert in this embedding (exact real arithmetic). -/
inductive Precision where
  | default : Precision
  | high : Precision
  | highest : Precision
deriving DecidableEq

/-- Initializer strategies named by the source; parameters are supplied
explicitly to the forward functions, so initializers are inert tags here. -/
inductive Initializer where
  | zeros : Initializer
  | kaimingUniform : Initializer
deriving DecidableEq

/-- Softmax of one row (the key axis): `exp xᵢ / Σⱼ exp xⱼ`. -/
noncomputable def softmaxRow (xs : Tensor1) : Tensor1 :=
  let s := (xs.map Real.exp).sum
  xs.map (fun x => Real.exp x / s)

/-- `nn.softmax` over the last axis of a rank-4 array. -/
noncomputable def softmax4 (t : Tensor4) : Tensor4 :=
  t.map (fun a => a.map (fun m => m.map softmaxRow))

/-- One dropout row: kept entries are rescaled by `1/(1-rate)`, dropped
entries become zero; the Bernoulli draw is the externally supplied mask
(spec §5: randomness is supplied by the caller). -/
noncomputable def dropoutRow (rate : ℝ) (mask : List Bool) (v : Tensor1) : Tensor1 :=
  List.zipWith (fun keep x => if keep then x / (1 - rate) else 0) mask v

/-- `nn.Dropout(rate)(x, deterministic)` on a rank-3 array: the identity when
`deterministic` is true. -/
noncomputable def dropout3 (rate : ℝ) (deterministic : Bool) (mask : Mask3) (x : Tensor3) : Tensor3 :=
  if deterministic then x
  else List.zipWith (fun mb xb => List.zipWith (dropoutRow rate) mb xb) mask x

/-- `nn.Dropout(rate)(x, deterministic)` on a rank-4 array. -/
noncomputable def dropout4 (rate : ℝ) (deterministic : Bool) (mask : Mask4) (x : Tensor4) : Tensor4 :=
  if deterministic then x
  else List.zipWith (fun mb xb =>
    List.zipWith (fun mh xh => List.zipWith (dropoutRow rate) mh xh) mb xb) mask x

/-- `flax.linen.LayerNorm` epsilon (default 1e-6). -/
noncomputable def lnEps : ℝ := 1 / 1000000

/-- LayerNorm of one channel vector: centre, scale by `1/sqrt(var+eps)`,
then apply the learned per-channel scale and bias. -/
noncomputable def layerNormRow (scale bias v : Tensor1) : Tensor1 :=
  let n : ℝ := (v.length : ℝ)
  let mean := v.sum / n
  let varnc := ((v.map (fun x => (x - mean) * (x - mean))).sum) / n
  let normed := v.map (fun x => (x - mean) / Real.sqrt (varnc + lnEps))
  List.zipWith (fun y gb => y * gb.1 + gb.2) normed (List.zip scale bias)

/-- `nn.LayerNorm` over the last axis of a rank-3 array. -/
noncomputable def layerNorm (scale bias : Tensor1) (x : Tensor3) : Tensor3 :=
  x.map (fun seq => seq.map (layerNormRow scale bias))

/-- Configuration of `AttentionBlock` (source lines 10-21), field for field. -/
structure AttentionBlock where
  num_heads : ℕ
  head_ch : Option ℕ := none
  out_ch : Option ℕ := none
  talking_heads : Bool := false
  attn_drop_rate : ℝ := 0
  out_drop_rate : ℝ := 0
  use_bias : Bool := false
  dtype : DType := DType.float32
  precision : Precision := Precision.default
  kernel_init : Initializer := Initializer.kaimingUniform
  bias_init : Initializer := Initializer.zeros

/-- Attribute names looked up on an `AttentionBlock` instance at call time.
`attn_dropout_rate` is the name the source reads at line 70. -/
inductive AttrName where
  | attn_drop_rate : AttrName
  | out_drop_rate : AttrName
  | attn_dropout_rate : AttrName
deriving DecidableEq

/-- Python attribute lookup of a float-valued attribute on an
`AttentionBlock` instance.  The dataclass declares `attn_drop_rate` and
`out_drop_rate` (source lines 15-16); there is no `attn_dropout_rate`
attribute, so that lookup raises `AttributeError`. -/
def AttentionBlock.getFloatAttr (cfg : AttentionBlock) : AttrName → Except Err ℝ
  | AttrName.attn_drop_rate => Except.ok cfg.attn_drop_rate
  | AttrName.out_drop_rate => Except.ok cfg.out_drop_rate
  | AttrName.attn_dropout_rate => Except.error Err.attributeError

/-- Explicit parameters of one `AttentionBlock`: the three input projections
(named `queries`, `keys`, `values` in the source), the talking-heads mixing
matrices (`pre_softmax`, `post_softmax`), the output projection, and the
caller-supplied dropout masks (the external randomness of spec §5). -/
structure AttentionBlock.Params where
  queriesKernel : Tensor3
  queriesBias : Tensor2
  keysKernel : Tensor3
  keysBias : Tensor2
  valuesKernel : Tensor3
  valuesBias : Tensor2
  pre_softmax : Tensor2
  post_softmax : Tensor2
  outKernel : Tensor3
  outBias : Tensor1
  attnDropMask : Mask4
  outDropMask : Mask3

/-- `nn.DenseGeneral(axis=-1, features=(num_heads, head_ch))` applied to one
channel vector: `out[h][d] = Σ_c v[c] * kernel[c][h][d]` plus the optional
bias. -/
noncomputable def projHeads (h d : ℕ) (kernel : Tensor3) (bias : Tensor2)
    (useBias : Bool) (v : Tensor1) : Tensor2 :=
  let contrib := List.zipWith (fun x krow => krow.map (fun drow => drow.map (fun w => x * w))) v kernel
  let s := contrib.foldl matAdd (matZeros h d)
  if useBias then matAdd s bias else s

/-- A head-splitting dense projection over a rank-3 input, producing
`(batch, seq, num_heads, head_ch)`. -/
noncomputable def denseHeads (h d : ℕ) (kernel : Tensor3) (bias : Tensor2)
    (useBias : Bool) (x : Tensor3) : Tensor4 :=
  x.map (fun seq => seq.map (projHeads h d kernel bias useBias))

/-- Resolved head width: `self.head_ch or int(in_ch / self.num_heads)`
(source line 29). -/
def AttentionBlock.headCh (cfg : AttentionBlock) (in_ch : ℕ) : ℕ :=
  pyOrNat cfg.head_ch (in_ch / cfg.num_heads)

/-- Resolved output width: `self.out_ch or in_ch` (source line 30). -/
def AttentionBlock.outCh (cfg : AttentionBlock) (in_ch : ℕ) : ℕ :=
  pyOrNat cfg.out_ch in_ch

/-- The scaled query tensor: the `queries` projection divided by
`sqrt(head_ch)` (source lines 41, 45). -/
noncomputable def AttentionBlock.scaledQuery (cfg : AttentionBlock)
    (ps : AttentionBlock.Params) (inputs_q : Tensor3) : Tensor4 :=
  let head_ch := cfg.headCh (lastDim inputs_q)
  let q := denseHeads cfg.num_heads head_ch ps.queriesKernel ps.queriesBias cfg.use_bias inputs_q
  q.map (fun seq => seq.map (fun hs => hs.map (fun ds => ds.map (fun x => x / Real.sqrt (head_ch : ℝ)))))

/-- The `keys` projection of the key/value source (source line 42). -/
noncomputable def AttentionBlock.keyProj (cfg : AttentionBlock)
    (ps : AttentionBlock.Params) (in_ch : ℕ) (inputs_kv : Tensor3) : Tensor4 :=
  denseHeads cfg.num_heads (cfg.headCh in_ch) ps.keysKernel ps.keysBias cfg.use_bias inputs_kv

/-- The `values` projection of the key/value source (source line 43). -/
noncomputable def AttentionBlock.valueProj (cfg : AttentionBlock)
    (ps : AttentionBlock.Params) (in_ch : ℕ) (inputs_kv : Tensor3) : Tensor4 :=
  denseHeads cfg.num_heads (cfg.headCh in_ch) ps.valuesKernel ps.valuesBias cfg.use_bias inputs_kv

/-- `einsum('... q h d, ... k h d -> ... h q k')` for one batch element:
per-head compatibility scores between every query and key position. -/
noncomputable def headScores (h : ℕ) (qb kb : Tensor3) : Tensor3 :=
  (List.range h).map (fun hi =>
    qb.map (fun qpos => kb.map (fun kpos => dot (qpos.getD hi []) (kpos.getD hi []))))

/-- Raw pre-softmax attention scores, batched. -/
noncomputable def rawScores (h : ℕ) (query key : Tensor4) : Tensor4 :=
  List.zipWith (headScores h) query key

/-- `einsum('... h q k, h i -> ... i q k')` with the `pre_softmax`
talking-heads matrix, for one batch element (source lines 54-57). -/
noncomputable def preMixHeads (h : ℕ) (pre : Tensor2) (w : Tensor3) : Tensor3 :=
  let qn := (w.headD []).length
  let kn := ((w.headD []).headD []).length
  (List.range h).map (fun i =>
    (List.range qn).map (fun qi =>
      (List.range kn).map (fun ki =>
        (List.zipWith (fun wh prow => ((wh.getD qi []).getD ki 0) * (prow.getD i 0)) w pre).sum)))

/-- `einsum('... i q k, i h -> ... h q k')` with the `post_softmax`
talking-heads matrix, for one batch element (source lines 65-68). -/
noncomputable def postMixHeads (h : ℕ) (post : Tensor2) (w : Tensor3) : Tensor3 :=
  let qn := (w.headD []).length
  let kn := ((w.headD []).headD []).length
  (List.range h).map (fun hi =>
    (List.range qn).map (fun qi =>
      (List.range kn).map (fun ki =>
        (List.zipWith (fun wi prow => ((wi.getD qi []).getD ki 0) * (prow.getD hi 0)) w post).sum)))

/-- The attention scores entering the softmax: raw query/key scores, mixed
across the head axis by `pre_softmax` when talking heads is enabled
(source lines 47-57). -/
noncomputable def AttentionBlock.preSoftmaxScores (cfg : AttentionBlock)
    (ps : AttentionBlock.Params) (inputs_q inputs_kv : Tensor3) : Tensor4 :=
  let in_ch := lastDim inputs_q
  let base := rawScores cfg.num_heads
    (cfg.scaledQuery ps inputs_q) (cfg.keyProj ps in_ch inputs_kv)
  if cfg.talking_heads then base.map (preMixHeads cfg.num_heads ps.pre_softmax) else base

/-- The attention-weight tensor immediately after the softmax (source line
59), before any `post_softmax` mixing and before dropout. -/
noncomputable def AttentionBlock.softmaxWeights (cfg : AttentionBlock)
    (ps : AttentionBlock.Params) (inputs_q inputs_kv : Tensor3) : Tensor4 :=
  softmax4 (cfg.preSoftmaxScores ps inputs_q inputs_kv)

/-- `einsum('... h q k, ... k h d -> ... q h d')` for one batch element:
the attention-weighted sum over value vectors. -/
noncomputable def contextBatch (h d : ℕ) (wb vb : Tensor3) : Tensor3 :=
  let qn := (wb.headD []).length
  (List.range qn).map (fun qi =>
    (List.range h).map (fun hi =>
      (List.range d).map (fun di =>
        (List.zipWith (fun wk vrow => wk * ((vrow.getD hi []).getD di 0))
          ((wb.getD hi []).getD qi []) vb).sum)))

/-- `nn.DenseGeneral(features=out_ch, axis=(-2,-1))` applied to one
`(num_heads, head_ch)` context matrix: flattens the head axes into the
output channels. -/
noncomputable def denseOutVec (out_ch : ℕ) (kernel : Tensor3) (bias : Tensor1)
    (useBias : Bool) (ctx : Tensor2) : Tensor1 :=
  (List.range out_ch).map (fun o =>
    (List.zipWith (fun crow kmat =>
      (List.zipWith (fun c kcol => c * kcol.getD o 0) crow kmat).sum) ctx kernel).sum
    + if useBias then bias.getD o 0 else 0)

/-- `AttentionBlock.__call__` (source lines 24-89).  The channel-divisibility
`assert` runs first; the projections, scores, talking-heads mixes and the
softmax are then computed, after which the source constructs the
attention-weights dropout with `rate=self.attn_dropout_rate` — an attribute
the dataclass never declares — so evaluation raises `AttributeError` there.
The remaining steps (dropout, value weighting, output projection, output
dropout) are translated after that lookup, exactly as the source orders
them. -/
noncomputable def AttentionBlock.fwd (cfg : AttentionBlock) (ps : AttentionBlock.Params)
    (inputs_q inputs_kv : Tensor3) (is_training : Bool) : Except Err Tensor3 :=
  let in_ch := lastDim inputs_q
  if in_ch % cfg.num_heads = 0 then
    let head_ch := cfg.headCh in_ch
    let out_ch := cfg.outCh in_ch
    let value := cfg.valueProj ps in_ch inputs_kv
    let aw := cfg.softmaxWeights ps inputs_q inputs_kv
    let aw := if cfg.talking_heads then aw.map (postMixHeads cfg.num_heads ps.post_softmax) else aw
    match cfg.getFloatAttr AttrName.attn_dropout_rate with
    | Except.error e => Except.error e
    | Except.ok rate =>
      let aw := dropout4 rate (! is_training) ps.attnDropMask aw
      let scores := List.zipWith (contextBatch cfg.num_heads head_ch) aw value
      let output := scores.map (fun seq => seq.map (denseOutVec out_ch ps.outKernel ps.outBias cfg.use_bias))
      let output := dropout3 cfg.out_drop_rate (! is_training) ps.outDropMask output
      Except.ok output
  else Except.error Err.configError

/-- Configuration of `SelfAttentionBlock` (source lines 92-103): the same
fields as `AttentionBlock`. -/
structure SelfAttentionBlock where
  num_heads : ℕ
  head_ch : Option ℕ := none
  out_ch : Option ℕ := none
  talking_heads : Bool := false
  attn_drop_rate : ℝ := 0
  out_drop_rate : ℝ := 0
  use_bias : Bool := false
  dtype : DType := DType.float32
  precision : Precision := Precision.default
  kernel_init : Initializer := Initializer.kaimingUniform
  bias_init : Initializer := Initializer.zeros

/-- The `AttentionBlock` that `SelfAttentionBlock.__call__` constructs
(source lines 107-117), forwarding every configuration field unchanged. -/
def SelfAttentionBlock.toBlock (cfg : SelfAttentionBlock) : AttentionBlock :=
  { num_heads := cfg.num_heads
    head_ch := cfg.head_ch
    out_ch := cfg.out_ch
    talking_heads := cfg.talking_heads
    attn_drop_rate := cfg.attn_drop_rate
    out_drop_rate := cfg.out_drop_rate
    use_bias := cfg.use_bias
    dtype := cfg.dtype
    precision := cfg.precision
    kernel_init := cfg.kernel_init
    bias_init := cfg.bias_init }

/-- `SelfAttentionBlock.__call__` (source lines 105-119): delegates to
`AttentionBlock` with the key/value source equal to the query source. -/
noncomputable def SelfAttentionBlock.fwd (cfg : SelfAttentionBlock)
    (ps : AttentionBlock.Params) (inputs : Tensor3) (is_training : Bool) : Except Err Tensor3 :=
  AttentionBlock.fwd cfg.toBlock ps inputs inputs is_training

/-- Configuration of `EncoderBlock` (vit.py lines 12-21). -/
structure EncoderBlock where
  num_heads : ℕ
  expand_ratio : ℝ := 4
  attn_dropout_rate : ℝ := 0
  dropout_rate : ℝ := 0
  dtype : DType := DType.float32
  precision : Precision := Precision.default
  kernel_init : Initializer := Initializer.kaimingUniform
  bias_init : Initializer := Initializer.zeros

/-- The `SelfAttentionBlock` that `EncoderBlock.__call__` constructs
(vit.py lines 26-31): only `num_heads`, the two dropout rates, `dtype`,
`precision` and `kernel_init` are passed; `talking_heads`, `use_bias`,
`head_ch`, `out_ch` and `bias_init` are left at their defaults. -/
def EncoderBlock.attnConfig (cfg : EncoderBlock) : SelfAttentionBlock :=
  { num_heads := cfg.num_heads
    attn_drop_rate := cfg.attn_dropout_rate
    out_drop_rate := cfg.dropout_rate
    dtype := cfg.dtype
    precision := cfg.precision
    kernel_init := cfg.kernel_init }

/-- Parameters of one `EncoderBlock`: the two LayerNorm scale/bias pairs,
the attention sublayer's parameters, and the `FFBlock` collaborator.
`ff` is the feed-forward sublayer, which lives outside src/.
Modelled from the spec: `FFBlock(...)(y, train)` returns a tensor of the
same shape as `y` (spec §6 collaborator contracts). -/
structure EncoderBlock.Params where
  ln1Scale : Tensor1
  ln1Bias : Tensor1
  attn : AttentionBlock.Params
  ln2Scale : Tensor1
  ln2Bias : Tensor1
  ff : Tensor3 → Bool → Tensor3

/-- `EncoderBlock.__call__` (vit.py lines 24-44): pre-norm attention with a
residual add on the un-normalized input, then pre-norm feed-forward with a
residual add on the first stage's output. -/
noncomputable def EncoderBlock.fwd (cfg : EncoderBlock) (ps : EncoderBlock.Params)
    (inputs : Tensor3) (is_training : Bool) : Except Err Tensor3 := do
  let x := layerNorm ps.ln1Scale ps.ln1Bias inputs
  let x ← SelfAttentionBlock.fwd cfg.attnConfig ps.attn x is_training
  let x := tensorAdd x inputs
  let y := layerNorm ps.ln2Scale ps.ln2Bias x
  let y := ps.ff y is_training
  pure (tensorAdd x y)

/-- Configuration of `Encoder` (vit.py lines 47-57). -/
structure Encoder where
  num_layers : ℕ
  num_heads : ℕ
  expand_ratio : ℝ := 4
  attn_dropout_rate : ℝ := 0
  dropout_rate : ℝ := 0
  dtype : DType := DType.float32
  precision : Precision := Precision.default
  kernel_init : Initializer := Initializer.kaimingUniform
  bias_init : Initializer := Initializer.zeros

/-- The `EncoderBlock` that `Encoder.__call__` constructs for every layer
(vit.py lines 65-72); `bias_init` is not forwarded. -/
def Encoder.blockConfig (cfg : Encoder) : EncoderBlock :=
  { num_heads := cfg.num_heads
    expand_ratio := cfg.expand_ratio
    attn_dropout_rate := cfg.attn_dropout_rate
    dropout_rate := cfg.dropout_rate
    dtype := cfg.dtype
    precision := cfg.precision
    kernel_init := cfg.kernel_init }

/-- Parameters of the `Encoder`: the positional-embedding collaborator, the
dropout mask, one parameter record per layer, and the final LayerNorm.
`addPosEmbed` is `AddAbsPosEmbed`, which lives outside src/.
Modelled from the spec: `AddAbsPosEmbed()(x)` returns a tensor of the same
shape as `x` (spec §6 collaborator contracts). -/
structure Encoder.Params where
  addPosEmbed : Tensor3 → Tensor3
  dropMask : Mask3
  blocks : ℕ → EncoderBlock.Params
  lnScale : Tensor1
  lnBias : Tensor1

/-- `Encoder.__call__` (vit.py lines 59-76): positional add, dropout,
`num_layers` sequential `EncoderBlock`s with identical configuration but
per-layer parameters, final LayerNorm. -/
noncomputable def Encoder.fwd (cfg : Encoder) (ps : Encoder.Params)
    (inputs : Tensor3) (is_training : Bool) : Except Err Tensor3 := do
  let x := ps.addPosEmbed inputs
  let x := dropout3 cfg.dropout_rate (! is_training) ps.dropMask x
  let x ← (List.range cfg.num_layers).foldlM
    (fun acc i => EncoderBlock.fwd cfg.blockConfig (ps.blocks i) acc is_training) x
  pure (layerNorm ps.lnScale ps.lnBias x)

/-- Configuration of `ViT` (vit.py lines 79-92). -/
structure ViT where
  num_classes : ℕ
  num_layers : ℕ
  num_heads : ℕ
  embed_dim : ℕ
  patch_shape : ℕ × ℕ
  expand_ratio : ℝ := 4
  dropout_rate : ℝ := 0
  attn_dropout_rate : ℝ := 0
  dtype : DType := DType.float32
  precision : Precision := Precision.default
  kernel_init : Initializer := Initializer.kaimingUniform
  bias_init : Initializer := Initializer.zeros

/-- The `Encoder` that `ViT.__call__` constructs (vit.py lines 112-121). -/
def ViT.encoderConfig (cfg : ViT) : Encoder :=
  { num_layers := cfg.num_layers
    num_heads := cfg.num_heads
    expand_ratio := cfg.expand_ratio
    attn_dropout_rate := cfg.attn_dropout_rate
    dropout_rate := cfg.dropout_rate
    dtype := cfg.dtype
    precision := cfg.precision
    kernel_init := cfg.kernel_init
    bias_init := cfg.bias_init }

/-- Parameters of `ViT` over an abstract image type: the patch-embedding
collaborator, the learned class-token vector (the `cls` parameter, shape
`(1, 1, embed_dim)`, held as its single row), the encoder parameters, and
the classification head's kernel and bias.  `patchEmbed` is
`PatchEmbedBlock`, which lives outside src/.  Modelled from the spec:
`PatchEmbedBlock(...)(image)` returns a `(B, num_patches, embed_dim)`
tensor (spec §6 collaborator contracts).  The head kernel's initializer is
fixed to zeros by the source (vit.py line 128). -/
structure ViT.Params (Img : Type) where
  patchEmbed : Img → Tensor3
  cls : Tensor1
  encoder : Encoder.Params
  headKernel : Tensor2
  headBias : Tensor1

/-- The classification head `nn.Dense(features=num_classes, use_bias=True)`
applied to one pooled vector. -/
noncomputable def denseHead (num_classes : ℕ) (kernel : Tensor2) (bias : Tensor1)
    (v : Tensor1) : Tensor1 :=
  (List.range num_classes).map (fun j =>
    (List.zipWith (fun x krow => x * krow.getD j 0) v kernel).sum + bias.getD j 0)

/-- `ViT.__call__` (vit.py lines 94-131): the `embed_dim % num_heads`
assert, patch embedding, tiling the single class-token vector across the
batch and concatenating it in front of the patch sequence (so it occupies
sequence index 0), the encoder, extraction of row 0, and the linear head. -/
noncomputable def ViT.fwd {Img : Type} (cfg : ViT) (ps : ViT.Params Img)
    (inputs : Img) (is_training : Bool) : Except Err Tensor2 :=
  if cfg.embed_dim % cfg.num_heads = 0 then do
    let x := ps.patchEmbed inputs
    let x := x.map (fun seq => ps.cls :: seq)
    let x ← Encoder.fwd cfg.encoderConfig ps.encoder x is_training
    let cls_token := x.map (fun seq => seq.headD [])
    pure (cls_token.map (denseHead cfg.num_classes ps.headKernel ps.headBias))
  else Except.error Err.configError

/-! ## Shared concrete parameter records for evaluation -/

/-- A trivial attention parameter record (empty kernels; sufficient for
evaluations whose result does not depend on the parameter values). -/
noncomputable def psTriv : AttentionBlock.Params :=
  { queriesKernel := []
    queriesBias := []
    keysKernel := []
    keysBias := []
    valuesKernel := []
    valuesBias := []
    pre_softmax := []
    post_softmax := []
    outKernel := []
    outBias := []
    attnDropMask := []
    outDropMask := [] }

/-- Attention parameters whose talking-heads mixing matrices are the
non-identity 1×1 matrix `[[2]]`. -/
noncomputable def psNonIdMix : AttentionBlock.Params :=
  { queriesKernel := [[[1]]]
    queriesBias := [[0]]
    keysKernel := [[[1]]]
    keysBias := [[0]]
    valuesKernel := [[[1]]]
    valuesBias := [[0]]
    pre_softmax := [[2]]
    post_softmax := [[2]]
    outKernel := [[[1]]]
    outBias := [0]
    attnDropMask := []
    outDropMask := [] }

/-- Encoder-block parameters for a one-channel input. -/
noncomputable def encPsTriv : EncoderBlock.Params :=
  { ln1Scale := [1]
    ln1Bias := [0]
    attn := psTriv
    ln2Scale := [1]
    ln2Bias := [0]
    ff := fun x _ => x }

/-- Encoder-block parameters for a 64-channel input. -/
noncomputable def encPs64 : EncoderBlock.Params :=
  { ln1Scale := List.replicate 64 1
    ln1Bias := List.replicate 64 0
    attn := psTriv
    ln2Scale := List.replicate 64 1
    ln2Bias := List.replicate 64 0
    ff := fun x _ => x }

/-- A minimal `ViT` configuration (one layer, one head, one channel). -/
def vitCfgTriv : ViT :=
  { num_classes := 2
    num_layers := 1
    num_heads := 1
    embed_dim := 1
    patch_shape := (1, 1) }

/-- `ViT` parameters matching `vitCfgTriv` over a unit image type. -/
noncomputable def vitPsTriv : ViT.Params Unit :=
  { patchEmbed := fun _ => [[[0]]]
    cls := [0]
    encoder :=
      { addPosEmbed := fun x => x
        dropMask := []
        blocks := fun _ => encPsTriv
        lnScale := [1]
        lnBias := [0] }
    headKernel := [[0, 0]]
    headBias := [0, 0] }

/-- The spec's end-to-end scenario 2 configuration: `embed_dim=64`,
`num_heads=8`, `num_layers=2`, `num_classes=10`, `patch_shape=(16,16)`. -/
def vitCfgS2 : ViT :=
  { num_classes := 10
    num_layers := 2
    num_heads := 8
    embed_dim := 64
    patch_shape := (16, 16) }

/-- `ViT` parameters matching `vitCfgS2`, with the classification head's
kernel and bias at their zero initialization (vit.py lines 124-130). -/
noncomputable def vitPsS2 : ViT.Params Unit :=
  { patchEmbed := fun _ => [[List.replicate 64 0]]
    cls := List.replicate 64 0
    encoder :=
      { addPosEmbed := fun x => x
        dropMask := []
        blocks := fun _ => encPs64
        lnScale := List.replicate 64 1
        lnBias := List.replicate 64 0 }
    headKernel := List.replicate 64 (List.replicate 10 0)
    headBias := List.replicate 10 0 }

/-! ## Helper lemmas -/

/-- Membership in a `zipWith` comes from members of both lists. -/
theorem zipWith_mem_exists {α β γ : Type} {f : α → β → γ} {c : γ} :
    ∀ {as : List α} {bs : List β}, c ∈ List.zipWith f as bs →
      ∃ a b, a ∈ as ∧ b ∈ bs ∧ c = f a b := by
  intro as
  induction as with
  | nil => intro bs h; simp [List.zipWith] at h
  | cons a as ih =>
    intro bs h
    cases bs with
    | nil => simp [List.zipWith] at h
    | cons b bs =>
      rw [List.zipWith_cons_cons, List.mem_cons] at h
      rcases h with h | h
      · exact ⟨a, b, List.mem_cons_self a as, List.mem_cons_self b bs, h⟩
      · rcases ih h with ⟨a0, b0, ha, hb, hc⟩
        exact ⟨a0, b0, List.mem_cons_of_mem a ha, List.mem_cons_of_mem b hb, hc⟩

/-- The softmax of a nonempty row sums to one: the exponentials are
positive, so dividing by their sum normalizes exactly. -/
theorem softmaxRow_sum_eq_one (xs : Tensor1) (h : xs ≠ []) : (softmaxRow xs).sum = 1 := by
  unfold softmaxRow
  have hpos : 0 < (xs.map Real.exp).sum := by
    apply List.sum_pos
    · intro x hx
      rcases List.mem_map.mp hx with ⟨y, _, rfl⟩
      exact Real.exp_pos y
    · simpa using h
  have hsum : (xs.map fun x => Real.exp x / (xs.map Real.exp).sum).sum
      = (xs.map Real.exp).sum / (xs.map Real.exp).sum := by
    simp only [div_eq_mul_inv]
    rw [List.sum_map_mul_right]
  simp only [hsum]
  exact div_self (ne_of_gt hpos)

/-- Every key-axis row of the pre-softmax score tensor is nonempty as soon
as every key/value sequence of the batch is nonempty: each row has one
entry per key position (with or without the talking-heads pre-mix). -/
theorem preScores_rows_ne_nil (cfg : AttentionBlock) (ps : AttentionBlock.Params)
    (inputs_q inputs_kv : Tensor3) (hkv : ∀ s ∈ inputs_kv, s ≠ []) :
    ∀ a ∈ cfg.preSoftmaxScores ps inputs_q inputs_kv, ∀ m ∈ a, ∀ r ∈ m, r ≠ [] := by
  intro a ha m hm r hr
  have hbase : ∀ w ∈ rawScores cfg.num_heads (cfg.scaledQuery ps inputs_q)
      (cfg.keyProj ps (lastDim inputs_q) inputs_kv),
      ∃ qb kb, kb ≠ ([] : Tensor3) ∧ w = headScores cfg.num_heads qb kb := by
    intro w hw
    rcases zipWith_mem_exists hw with ⟨qb, kb, _, hkb, hw'⟩
    rcases List.mem_map.mp hkb with ⟨kvb, hkvb, rfl⟩
    refine ⟨qb, kvb.map (projHeads cfg.num_heads (cfg.headCh (lastDim inputs_q))
      ps.keysKernel ps.keysBias cfg.use_bias), ?_, hw'⟩
    simpa using hkv kvb hkvb
  unfold AttentionBlock.preSoftmaxScores at ha
  by_cases ht : cfg.talking_heads
  · rw [if_pos ht] at ha
    rcases List.mem_map.mp ha with ⟨w, hw, rfl⟩
    rcases hbase w hw with ⟨qb, kb, hkbne, rfl⟩
    unfold preMixHeads at hm
    simp only at hm
    rcases List.mem_map.mp hm with ⟨hi, hhi, rfl⟩
    rcases List.mem_map.mp hr with ⟨qi, hqi, rfl⟩
    have hH : cfg.num_heads ≠ 0 := by
      intro h0
      rw [h0] at hhi
      simp at hhi
    have hqb : qb ≠ [] := by
      intro hq0
      rw [List.mem_range] at hqi
      unfold headScores at hqi
      rcases Nat.exists_eq_add_of_lt (Nat.pos_of_ne_zero hH) with ⟨k, hk⟩
      revert hqi
      simp [hq0, List.headD, hk, List.range_succ_eq_map]
    have hkn : ((((headScores cfg.num_heads qb kb).headD []).headD []).length) = kb.length := by
      unfold headScores
      rcases Nat.exists_eq_add_of_lt (Nat.pos_of_ne_zero hH) with ⟨k, hk⟩
      rcases List.exists_cons_of_ne_nil hqb with ⟨q0, qtl, rfl⟩
      rw [hk]
      simp [List.range_succ_eq_map]
    intro hrnil
    rw [List.map_eq_nil_iff] at hrnil
    rw [List.range_eq_nil] at hrnil
    rw [hkn] at hrnil
    exact hkbne (List.length_eq_zero.mp hrnil)
  · rw [if_neg ht] at ha
    rcases hbase a ha with ⟨qb, kb, hkbne, rfl⟩
    unfold headScores at hm
    rcases List.mem_map.mp hm with ⟨hi, _, rfl⟩
    rcases List.mem_map.mp hr with ⟨qpos, _, rfl⟩
    intro hrnil
    rw [List.map_eq_nil_iff] at hrnil
    exact hkbne hrnil

/-- Every key-axis row of a rank-4 attention-weight tensor sums to one. -/
def rowsSumToOne (t : Tensor4) : Prop :=
  ∀ a ∈ t, ∀ m ∈ a, ∀ r ∈ m, r.sum = 1

/-! ## Claim theorems -/

/-- Claim C1 (code bug): `AttentionBlock.__call__` constructs the
attention-weights dropout from `self.attn_dropout_rate` (line 70), but the
declared configuration field is `attn_drop_rate` (line 15); the attribute
lookup raises `AttributeError`, so dropout is never applied with the
configured rate — every forward call fails at that point instead. -/
theorem attn_dropout_reads_missing_attribute :
    AttentionBlock.getFloatAttr { num_heads := 1 } AttrName.attn_dropout_rate
      = Except.error Err.attributeError ∧
    AttentionBlock.fwd { num_heads := 1 } psTriv [[[0]]] [[[0]]] true
      = Except.error Err.attributeError :=
  ⟨rfl, rfl⟩

/-- Claim C2 (code bug): on the spec's scenario-1 input — a `(2, 5, 8)`
zero tensor with `num_heads = 2`, so `8 % 2 = 0` — `SelfAttentionBlock`'s
forward raises `AttributeError` from the `attn_dropout_rate` lookup instead
of returning a `(2, 5, 8)` tensor. -/
theorem selfAttention_scenario1_raises_instead_of_returning :
    SelfAttentionBlock.fwd { num_heads := 2 } psTriv
      (List.replicate 2 (List.replicate 5 (List.replicate 8 (0 : ℝ)))) false
      = Except.error Err.attributeError :=
  rfl

/-- Claim C3 (code bug): with identical projection parameters and
non-identity 1×1 mixing matrices `[[2]]`, the `talking_heads = true` and
`talking_heads = false` forwards both raise `AttributeError`; neither
produces an output, so in particular the outputs do not differ. -/
theorem talking_heads_comparison_no_outputs :
    AttentionBlock.fwd { num_heads := 1, talking_heads := true } psNonIdMix [[[0]]] [[[0]]] false
      = Except.error Err.attributeError ∧
    AttentionBlock.fwd { num_heads := 1 } psNonIdMix [[[0]]] [[[0]]] false
      = Except.error Err.attributeError :=
  ⟨rfl, rfl⟩

/-- Claim C4 (code bug): `EncoderBlock.__call__` calls its attention
sublayer before anything else is combined, and that call raises
`AttributeError`, so the block never computes either residual stage. -/
theorem encoderBlock_forward_raises :
    EncoderBlock.fwd { num_heads := 1 } encPsTriv [[[0]]] false
      = Except.error Err.attributeError :=
  rfl

/-- Claim C5 (confirmed): the attention-weight tensor taken immediately
after the softmax (before any `post_softmax` mixing) has every key-axis row
summing to one, for every configuration satisfying the divisibility
precondition and inputs whose key/value sequences are nonempty. -/
theorem softmax_rows_sum_to_one (cfg : AttentionBlock) (ps : AttentionBlock.Params)
    (inputs_q inputs_kv : Tensor3)
    (hdiv : lastDim inputs_q % cfg.num_heads = 0)
    (hkv : ∀ s ∈ inputs_kv, s ≠ []) :
    rowsSumToOne (cfg.softmaxWeights ps inputs_q inputs_kv) := by
  intro a ha m hm r hr
  unfold AttentionBlock.softmaxWeights softmax4 at ha
  rcases List.mem_map.mp ha with ⟨a0, ha0, rfl⟩
  rcases List.mem_map.mp hm with ⟨m0, hm0, rfl⟩
  rcases List.mem_map.mp hr with ⟨r0, hr0, rfl⟩
  exact softmaxRow_sum_eq_one r0
    (preScores_rows_ne_nil cfg ps inputs_q inputs_kv hkv a0 ha0 m0 hm0 r0 hr0)

/-- Witness for C5 at a concrete input: one batch, one query/key position,
one channel, one head. -/
theorem softmax_rows_sum_to_one_witness :
    (lastDim [[[0]]] % 1 = 0) ∧ (∀ s ∈ ([[[(0 : ℝ)]]] : Tensor3), s ≠ []) ∧
    rowsSumToOne (AttentionBlock.softmaxWeights { num_heads := 1 } psTriv [[[0]]] [[[0]]]) :=
  ⟨by decide,
   by
    intro s hs
    rw [List.mem_singleton] at hs
    subst hs
    exact List.cons_ne_nil _ _,
   softmax_rows_sum_to_one { num_heads := 1 } psTriv [[[0]]] [[[0]]] (by decide)
     (by
      intro s hs
      rw [List.mem_singleton] at hs
      subst hs
      exact List.cons_ne_nil _ _)⟩

/-- Claim C6 (confirmed): the divisibility `assert` is the first thing the
forward call evaluates; when the query-side channel count is not divisible
by `num_heads` the call fails with the configuration error before any
attention tensor work, and when it is divisible no configuration error is
raised.  (`num_heads = 0` is excluded: there Python's `%` itself raises
`ZeroDivisionError`.) -/
theorem divisibility_config_error_iff (cfg : AttentionBlock) (ps : AttentionBlock.Params)
    (inputs_q inputs_kv : Tensor3) (t : Bool) (hpos : 0 < cfg.num_heads) :
    (lastDim inputs_q % cfg.num_heads ≠ 0 →
      AttentionBlock.fwd cfg ps inputs_q inputs_kv t = Except.error Err.configError) ∧
    (lastDim inputs_q % cfg.num_heads = 0 →
      AttentionBlock.fwd cfg ps inputs_q inputs_kv t ≠ Except.error Err.configError) := by
  constructor
  · intro hnd
    unfold AttentionBlock.fwd
    rw [if_neg hnd]
  · intro hd
    unfold AttentionBlock.fwd
    rw [if_pos hd]
    simp [AttentionBlock.getFloatAttr]

/-- Witness for C6: three channels do not divide into two heads (error),
two channels do (no configuration error). -/
theorem divisibility_config_error_iff_witness :
    (0 < 2) ∧
    AttentionBlock.fwd { num_heads := 2 } psTriv [[[0, 0, 0]]] [[[0, 0, 0]]] true
      = Except.error Err.configError ∧
    AttentionBlock.fwd { num_heads := 2 } psTriv [[[0, 0]]] [[[0, 0]]] true
      ≠ Except.error Err.configError :=
  ⟨by decide,
   (divisibility_config_error_iff { num_heads := 2 } psTriv [[[0, 0, 0]]] [[[0, 0, 0]]] true
      (by decide)).1 (by decide),
   (divisibility_config_error_iff { num_heads := 2 } psTriv [[[0, 0]]] [[[0, 0]]] true
      (by decide)).2 (by decide)⟩

/-- Claim C7 (code bug): a `ViT` forward with at least one encoder layer
raises `AttributeError` inside the first block's attention sublayer, so the
row-0 pooling after the encoder is never reached (the class-token prepend
itself happens earlier and is faithful to the claim). -/
theorem vit_forward_raises_before_pooling :
    ViT.fwd vitCfgTriv vitPsTriv () false = Except.error Err.attributeError :=
  rfl

/-- Claim C8 (code bug): on the spec's scenario-2 configuration with the
classification head's kernel and bias at their zero initialization, the
forward raises `AttributeError` instead of returning all-zero logits. -/
theorem vit_zero_head_raises_no_logits :
    ViT.fwd vitCfgS2 vitPsS2 () false = Except.error Err.attributeError :=
  rfl

/-- Claim C9 (confirmed): the attention sublayer constructed inside
`EncoderBlock` — and hence inside any `Encoder` and any `ViT` — has
`talking_heads = false`, `use_bias = false`, and the default (zeros) bias
initializer, because `EncoderBlock.__call__` does not pass those fields. -/
theorem encoder_attention_defaults :
    ∀ (eb : EncoderBlock) (enc : Encoder) (vit : ViT),
      (eb.attnConfig.toBlock.talking_heads = false ∧
        eb.attnConfig.toBlock.use_bias = false ∧
        eb.attnConfig.toBlock.bias_init = Initializer.zeros) ∧
      (enc.blockConfig.attnConfig.toBlock.talking_heads = false ∧
        enc.blockConfig.attnConfig.toBlock.use_bias = false ∧
        enc.blockConfig.attnConfig.toBlock.bias_init = Initializer.zeros) ∧
      (vit.encoderConfig.blockConfig.attnConfig.toBlock.talking_heads = false ∧
        vit.encoderConfig.blockConfig.attnConfig.toBlock.use_bias = false ∧
        vit.encoderConfig.blockConfig.attnConfig.toBlock.bias_init = Initializer.zeros) :=
  fun _ _ _ => ⟨⟨rfl, rfl, rfl⟩, ⟨rfl, rfl, rfl⟩, ⟨rfl, rfl, rfl⟩⟩

/-- Claim C10 (confirmed): because the defaults are selected by Python
truthiness (`x or default`), passing `head_ch = 0` or `out_ch = 0` resolves
to the same widths as leaving them unspecified, and the whole forward
computation (and the post-softmax weight tensor) is identical in each
case, for every configuration, parameter record, input and training flag. -/
theorem zero_head_ch_out_ch_as_unspecified :
    ∀ (cfg : AttentionBlock) (ps : AttentionBlock.Params) (q kv : Tensor3) (t : Bool) (c : ℕ),
      AttentionBlock.headCh { cfg with head_ch := some 0 } c
        = AttentionBlock.headCh { cfg with head_ch := none } c ∧
      AttentionBlock.outCh { cfg with out_ch := some 0 } c
        = AttentionBlock.outCh { cfg with out_ch := none } c ∧
      AttentionBlock.fwd { cfg with head_ch := some 0 } ps q kv t
        = AttentionBlock.fwd { cfg with head_ch := none } ps q kv t ∧
      AttentionBlock.fwd { cfg with out_ch := some 0 } ps q kv t
        = AttentionBlock.fwd { cfg with out_ch := none } ps q kv t ∧
      AttentionBlock.softmaxWeights { cfg with head_ch := some 0 } ps q kv
        = AttentionBlock.softmaxWeights { cfg with head_ch := none } ps q kv :=
  fun _ _ _ _ _ _ => ⟨rfl, rfl, rfl, rfl, rfl⟩
